import Mathlib

/-!
Verification development for the ESP32-CAM streaming sketch
(src/esp32_camera_code.ino).  The definitions below are shallow embeddings of
the functions of that file: machine integers become Int/Nat, pointers that may
be NULL become Option, fallible driver and network calls become explicit
inputs, and the observable side effects (driver setter calls, buffer
acquire/release, HTTP chunk writes) are recorded as explicit event lists.
-/

/-! ## Running-average rate filter (lines 497-525)

The struct ra_filter_t is referenced by the sketch but its declaration is not
part of the repository; following the specification (section 3, Rate Filter
State: a fixed-size circular buffer, a running sum, a write index and a count
of valid samples) it is modelled with a Nat size/index/count, an Int sum and
an optional Int array for the malloc-ed values pointer (none models NULL).
-/

structure ra_filter_t where
  size : Nat
  index : Nat
  count : Nat
  sum : Int
  values : Option (Array Int)
deriving DecidableEq

/-- Embeds ra_filter_init (lines 499-510) on the successful-allocation path:
the struct is zeroed, the values buffer is allocated and zeroed and the size
field is set to the sample window size. -/
def ra_filter_init (sample_size : Nat) : ra_filter_t :=
  { size := sample_size, index := 0, count := 0, sum := 0,
    values := some (mkArray sample_size (0 : Int)) }

/-- Embeds ra_filter_run (lines 512-525).  A NULL values pointer returns the
raw sample and leaves the state untouched; otherwise the slot at the current
index is replaced, the running sum adjusted, the index advanced modulo size,
the count saturated at size, and sum / count returned with C truncating
integer division (Int.tdiv). -/
def ra_filter_run (filter : ra_filter_t) (value : Int) : ra_filter_t × Int :=
  match filter.values with
  | none => (filter, value)
  | some vs =>
    let sum1 := filter.sum - vs.getD filter.index 0
    let vs1 := vs.setD filter.index value
    let sum2 := sum1 + vs1.getD filter.index 0
    let index1 := (filter.index + 1) % filter.size
    let count1 := if filter.count < filter.size then filter.count + 1 else filter.count
    ({ size := filter.size, index := index1, count := count1, sum := sum2,
       values := some vs1 },
     Int.tdiv sum2 (count1 : Int))

/-- Feeds a list of samples to the filter in order; the second component is
the average returned by the last ra_filter_run call (0 if no sample was fed). -/
def ra_run_all (f : ra_filter_t) (l : List Int) : ra_filter_t × Int :=
  l.foldl (fun p v => ra_filter_run p.1 v) (f, 0)

/-- The global static ra_filter (line 498) at process start: a static C
object is zero-initialized, so every field is 0 and the values pointer is
NULL. -/
def startup_ra_filter : ra_filter_t :=
  { size := 0, index := 0, count := 0, sum := 0, values := none }

/-- The externally visible initialization steps of the sketch at boot. -/
inductive StartupAct where
  | serialBegin
  | cameraInit
  | sensorDefaults
  | wifiConnect
  | startCameraServer
  | raFilterInit (window : Nat)
deriving DecidableEq

/-- Embeds setup() (lines 100-188) together with startCameraServer
(lines 191-233) as the sequence of initialization actions they perform:
Serial.begin, esp_camera_init, the block of sensor defaults, the WiFi
connect loop, and starting the two HTTP servers.  No call to ra_filter_init
occurs anywhere in the repository. -/
def setupActs : List StartupAct :=
  [StartupAct.serialBegin, StartupAct.cameraInit, StartupAct.sensorDefaults,
   StartupAct.wifiConnect, StartupAct.startCameraServer]

def isRaFilterInit : StartupAct → Bool
  | StartupAct.raFilterInit _ => true
  | _ => false

/-- The globals the stream handler touches across a session: the static
last_frame timestamp (line 421) and the global ra_filter (line 498). -/
structure StreamGlobals where
  last_frame : Int
  filter : ra_filter_t
deriving DecidableEq

/-- Embeds the session-exit code of the stream handler (lines 482-485):
after the loop breaks the handler zeroes last_frame and returns; no other
global state is written. -/
def stream_session_exit (g : StreamGlobals) : StreamGlobals :=
  { g with last_frame := 0 }

/-- Embeds the fps value of the diagnostic log line (line 480): the code
prints 1000000.0 divided by the smoothed average frame time, which at this
point is measured in milliseconds (frame_time was divided by 1000 at
line 476).  The double division is modelled exactly as a rational. -/
def stream_log_fps (avg_frame_time_ms : Nat) : Rat :=
  1000000 / (avg_frame_time_ms : Rat)

/-- Embeds the whole diagnostic log line of lines 478-481: byte size of the
part, elapsed milliseconds since the previous iteration, and the fps value as
the code computes it. -/
def stream_log_line (jpg_len frame_time_ms avg_ms : Nat) : Nat × Nat × Rat :=
  (jpg_len, frame_time_ms, stream_log_fps avg_ms)

/-! ## Sensor control processor (cmd_handler, lines 341-412)

The handler is a pure function of the request query string, the transient
allocation and parse outcomes, the current sensor pixel format, and a driver
oracle giving the int result each sensor setter would return.  Its outputs
are the HTTP response class and the list of driver setter calls made.
-/

inductive PixFormat where
  | jpeg
  | other
deriving DecidableEq

inductive CtrlResp where
  | ok200
  | err404
  | err500
deriving DecidableEq

/-- The inputs cmd_handler branches on before dispatch: the parsed query
key-value pairs (none models a request with an empty query string, in which
case httpd_req_get_url_query_len returns 0), whether the malloc of the query
buffer succeeds, and whether httpd_req_get_url_query_str succeeds. -/
structure CmdInput where
  query : Option (List (String × String))
  allocOk : Bool
  parseOk : Bool

/-- Embeds httpd_query_key_value into a 32-byte buffer: the lookup fails
when the key is absent, and is truncated (result not ESP_OK) when the value
does not fit in 31 characters plus NUL. -/
def qkv (q : List (String × String)) (k : String) : Option String :=
  match q.lookup k with
  | some v => if v.length < 32 then some v else none
  | none => none

def digitsVal (cs : List Char) : Int :=
  (((cs.takeWhile Char.isDigit).foldl (fun a c => a * 10 + (c.toNat - 48)) 0 : Nat) : Int)

/-- Embeds atoi (line 373): skip leading whitespace, read an optional sign
and then the leading run of decimal digits; a string with no digits gives 0. -/
def atoi (s : String) : Int :=
  match s.toList.dropWhile (fun c => c == ' ' || c == '\t' || c == '\n' || c == '\r') with
  | '-' :: rest => - digitsVal rest
  | '+' :: rest => digitsVal rest
  | rest => digitsVal rest

/-- The fixed table of parameter names cmd_handler dispatches on
(lines 377-401), in source order. -/
def supportedVars : List String :=
  ["framesize", "quality", "contrast", "brightness", "saturation", "gainceiling",
   "colorbar", "awb", "agc", "aec", "hmirror", "vflip", "awb_gain", "agc_gain",
   "aec_value", "aec2", "dcw", "bpc", "wpc", "raw_gma", "lenc", "wb_mode", "ae_level"]

/-- Embeds the dispatch chain of cmd_handler (lines 373-404).  The result
int starts at 0; a framesize request is forwarded to the driver only when
the current pixel format is the compressed (JPEG) one — otherwise no call is
made and res keeps its initial 0.  Unknown names set res to -1 with no
driver call.  The returned list records the driver setter calls made. -/
def cmd_dispatch (pixformat : PixFormat) (driver : String → Int → Int)
    (varName : String) (val : Int) : Int × List (String × Int) :=
  if varName = "framesize" then
    if pixformat = PixFormat.jpeg then (driver "framesize" val, [("framesize", val)])
    else (0, [])
  else if varName = "quality" then (driver "quality" val, [("quality", val)])
  else if varName = "contrast" then (driver "contrast" val, [("contrast", val)])
  else if varName = "brightness" then (driver "brightness" val, [("brightness", val)])
  else if varName = "saturation" then (driver "saturation" val, [("saturation", val)])
  else if varName = "gainceiling" then (driver "gainceiling" val, [("gainceiling", val)])
  else if varName = "colorbar" then (driver "colorbar" val, [("colorbar", val)])
  else if varName = "awb" then (driver "awb" val, [("awb", val)])
  else if varName = "agc" then (driver "agc" val, [("agc", val)])
  else if varName = "aec" then (driver "aec" val, [("aec", val)])
  else if varName = "hmirror" then (driver "hmirror" val, [("hmirror", val)])
  else if varName = "vflip" then (driver "vflip" val, [("vflip", val)])
  else if varName = "awb_gain" then (driver "awb_gain" val, [("awb_gain", val)])
  else if varName = "agc_gain" then (driver "agc_gain" val, [("agc_gain", val)])
  else if varName = "aec_value" then (driver "aec_value" val, [("aec_value", val)])
  else if varName = "aec2" then (driver "aec2" val, [("aec2", val)])
  else if varName = "dcw" then (driver "dcw" val, [("dcw", val)])
  else if varName = "bpc" then (driver "bpc" val, [("bpc", val)])
  else if varName = "wpc" then (driver "wpc" val, [("wpc", val)])
  else if varName = "raw_gma" then (driver "raw_gma" val, [("raw_gma", val)])
  else if varName = "lenc" then (driver "lenc" val, [("lenc", val)])
  else if varName = "wb_mode" then (driver "wb_mode" val, [("wb_mode", val)])
  else if varName = "ae_level" then (driver "ae_level" val, [("ae_level", val)])
  else (-1, [])

/-- Embeds cmd_handler (lines 341-412).  An absent query string gives 404; a
failed buffer malloc gives 500; a failed query-string read gives 404; a
missing var or val key gives 404; after dispatch a nonzero res gives 500 and
a zero res gives the 200 success response with the CORS header and empty
body.  The second component is the list of driver setter calls made. -/
def cmd_handler (inp : CmdInput) (pixformat : PixFormat)
    (driver : String → Int → Int) : CtrlResp × List (String × Int) :=
  match inp.query with
  | none => (CtrlResp.err404, [])
  | some q =>
    if inp.allocOk then
      if inp.parseOk then
        match qkv q "var", qkv q "val" with
        | some varName, some valStr =>
          let rc := cmd_dispatch pixformat driver varName (atoi valStr)
          if rc.1 ≠ 0 then (CtrlResp.err500, rc.2) else (CtrlResp.ok200, rc.2)
        | _, _ => (CtrlResp.err404, [])
      else (CtrlResp.err404, [])
    else (CtrlResp.err500, [])

/-- A concrete control request with an unknown parameter name. -/
def reqUnknownVar : CmdInput :=
  { query := some [("var", "unknown_name"), ("val", "5")], allocOk := true, parseOk := true }

/-- A concrete control request carrying var=framesize and val=5. -/
def reqFramesize : CmdInput :=
  { query := some [("var", "framesize"), ("val", "5")], allocOk := true, parseOk := true }

/-- A concrete control request whose query is missing the val key. -/
def reqMissingVal : CmdInput :=
  { query := some [("var", "quality")], allocOk := true, parseOk := true }

/-- The same request as reqMissingVal but with a failing buffer malloc. -/
def reqMissingValAllocFail : CmdInput :=
  { query := some [("var", "quality")], allocOk := false, parseOk := true }

/-! ## Stream encoder (canonical stream_handler, lines 414-486)

The loop body is a pure function of one iteration environment: the
esp_camera_fb_get result, the frame2jpg outcome for a raw frame, and the
outcomes of the three httpd_resp_send_chunk calls.  Running the loop against
a script of environments yields the trace of observable events in program
order; the loop stops after the first iteration whose res is not ESP_OK
(break at line 470).
-/

/-- A hardware frame buffer as returned by esp_camera_fb_get: pixel format
and payload byte length. -/
structure FrameBuf where
  format : PixFormat
  len : Nat
deriving DecidableEq

/-- The environment of one loop iteration: the esp_camera_fb_get result
(none models the driver timeout), the frame2jpg result for a non-JPEG frame
(some clen gives the converted buffer length), and the success of the three
chunk writes. -/
structure IterEnv where
  acq : Option FrameBuf
  conv : Option Nat
  w1 : Bool
  w2 : Bool
  w3 : Bool
deriving DecidableEq

/-- The observable events of the stream loop, in program order. -/
inductive Ev where
  | fbGetOk (len : Nat)
  | fbGetFail
  | convOk (len : Nat)
  | convFail
  | fbReturn
  | freeBuf
  | sendHeader (s : String) (ok : Bool)
  | sendPayload (len : Nat) (ok : Bool)
  | sendBoundary (ok : Bool)
deriving DecidableEq

/-- PART_BOUNDARY (line 489). -/
def PART_BOUNDARY : String := "123456789000000000000987654321"

/-- _STREAM_BOUNDARY (line 491). -/
def STREAM_BOUNDARY : String := "\r\n--" ++ PART_BOUNDARY ++ "\r\n"

/-- Embeds snprintf(part_buf, 64, _STREAM_PART, n) at line 453: the format
string of line 492 with its %u directive replaced by the decimal rendering
of n.  For a uint32 length the formatted header is at most 56 bytes, under
the 64-byte bound, so no truncation occurs. -/
def STREAM_PART_fmt (n : Nat) : String :=
  "Content-Type: image/jpeg\r\nContent-Length: " ++ Nat.repr n ++ "\r\n\r\n"

/-- The three guarded chunk writes of lines 452-461, entered with res ==
ESP_OK: each write is attempted only while res is still ESP_OK, so a failed
write suppresses the remaining ones.  Returns the write events and whether
res is still ESP_OK afterwards. -/
def writePhase (plen : Nat) (w1 w2 w3 : Bool) : List Ev × Bool :=
  if w1 then
    if w2 then
      if w3 then
        ([Ev.sendHeader (STREAM_PART_fmt plen) true, Ev.sendPayload plen true,
          Ev.sendBoundary true], true)
      else
        ([Ev.sendHeader (STREAM_PART_fmt plen) true, Ev.sendPayload plen true,
          Ev.sendBoundary false], false)
    else ([Ev.sendHeader (STREAM_PART_fmt plen) true, Ev.sendPayload plen false], false)
  else ([Ev.sendHeader (STREAM_PART_fmt plen) false], false)

/-- One iteration of the stream loop (lines 433-471).  An acquire failure
sets res to fail with nothing held.  A JPEG frame is served directly and
returned to the pool in the disposal block after the writes.  A raw frame is
converted first and the original returned immediately after frame2jpg (lines
440-441) whatever the conversion outcome; a failed conversion skips the
writes, a successful one serves the converted buffer, which the disposal
block frees.  Returns the events of the iteration and whether res is ESP_OK
at its end (loop continues). -/
def streamIter (e : IterEnv) : List Ev × Bool :=
  match e.acq with
  | none => ([Ev.fbGetFail], false)
  | some fb =>
    match fb.format with
    | PixFormat.jpeg =>
      let wp := writePhase fb.len e.w1 e.w2 e.w3
      (Ev.fbGetOk fb.len :: wp.1 ++ [Ev.fbReturn], wp.2)
    | PixFormat.other =>
      match e.conv with
      | none => ([Ev.fbGetOk fb.len, Ev.convFail, Ev.fbReturn], false)
      | some clen =>
        let wp := writePhase clen e.w1 e.w2 e.w3
        (Ev.fbGetOk fb.len :: Ev.convOk clen :: Ev.fbReturn :: wp.1 ++ [Ev.freeBuf], wp.2)

/-- The event trace of the whole loop run against a script of iteration
environments: it stops after the first iteration ending with res not ESP_OK;
an exhausted script just ends the trace. -/
def streamTrace : List IterEnv → List Ev
  | [] => []
  | e :: rest =>
    let it := streamIter e
    if it.2 then it.1 ++ streamTrace rest else it.1

def isAcqOk : Ev → Bool
  | Ev.fbGetOk _ => true
  | _ => false

def isFbReturn : Ev → Bool
  | Ev.fbReturn => true
  | _ => false

def isConvOk : Ev → Bool
  | Ev.convOk _ => true
  | _ => false

def isFreeBuf : Ev → Bool
  | Ev.freeBuf => true
  | _ => false

def isWriteEv : Ev → Bool
  | Ev.sendHeader _ _ => true
  | Ev.sendPayload _ _ => true
  | Ev.sendBoundary _ => true
  | _ => false

def isFailedWrite : Ev → Bool
  | Ev.sendHeader _ ok => !ok
  | Ev.sendPayload _ ok => !ok
  | Ev.sendBoundary ok => !ok
  | _ => false

/-- One step of the frame-ownership discipline over the state (hardware
frame outstanding, converted buffer outstanding): a hardware frame may be
acquired only while none is outstanding and released only while one is, and
likewise for the converted buffer; none signals a violation. -/
def ownStep (st : Bool × Bool) (e : Ev) : Option (Bool × Bool) :=
  match e with
  | Ev.fbGetOk _ => if st.1 then none else some (true, st.2)
  | Ev.convOk _ => if st.2 then none else some (st.1, true)
  | Ev.fbReturn => if st.1 then some (false, st.2) else none
  | Ev.freeBuf => if st.2 then some (st.1, false) else none
  | _ => some st

/-- Walks a trace through ownStep: acquires and releases must be paired
one-to-one in order with at most one hardware frame and one converted
buffer outstanding at any instant.  Returns the outstanding flags at the
end of the trace, or none if the discipline is violated somewhere. -/
def ownCheck : List Ev → Bool × Bool → Option (Bool × Bool)
  | [], st => some st
  | e :: rest, st =>
    match ownStep st e with
    | none => none
    | some st1 => ownCheck rest st1

/-- Checks that after any failed write event no further write event occurs
anywhere in the trace. -/
def noWritesAfterFailB : List Ev → Bool
  | [] => true
  | e :: rest =>
    (if isFailedWrite e then rest.all (fun x => !isWriteEv x) else true) &&
      noWritesAfterFailB rest

/-- Modelled from the spec (section 4.3): the payload length served in one
iteration, when one is served — a JPEG frame is served as is, a raw frame
through its successful conversion. -/
def servedLen (e : IterEnv) : Option Nat :=
  match e.acq with
  | none => none
  | some fb =>
    match fb.format with
    | PixFormat.jpeg => some fb.len
    | PixFormat.other => e.conv

/-- Modelled from the spec (section 4.3 step 3): for each served frame the
writes are, in order, the per-part header carrying the payload length, the
payload bytes, then the boundary delimiter; a write failure truncates the
part there and ends the stream; an acquire or conversion failure ends the
stream with no part written. -/
def specWrites : List IterEnv → List Ev
  | [] => []
  | e :: rest =>
    match servedLen e with
    | none => []
    | some n =>
      if e.w1 then
        if e.w2 then
          if e.w3 then
            Ev.sendHeader (STREAM_PART_fmt n) true :: Ev.sendPayload n true ::
              Ev.sendBoundary true :: specWrites rest
          else [Ev.sendHeader (STREAM_PART_fmt n) true, Ev.sendPayload n true,
            Ev.sendBoundary false]
        else [Ev.sendHeader (STREAM_PART_fmt n) true, Ev.sendPayload n false]
      else [Ev.sendHeader (STREAM_PART_fmt n) false]

/-- A concrete iteration serving a raw frame through a successful conversion
with all three writes succeeding. -/
def convIter : IterEnv :=
  { acq := some { format := PixFormat.other, len := 5 }, conv := some 7,
    w1 := true, w2 := true, w3 := true }

/-- A one-iteration script exercising the conversion path. -/
def convScript : List IterEnv := [convIter]

/-- The reachable-state invariant of the rate filter driven from an
initialized filter with window w: after feeding the samples of l, the state
keeps size w, the index is the number n of samples modulo w, the count is n
clamped to w, the running sum is the sum of the last min(n, w) samples, the
buffer holds each of the last min(n, w) samples at its circular slot, and
every never-written slot still holds its initial 0. -/
def FilterInv (w : Nat) (l : List Int) (st : ra_filter_t) : Prop :=
  ∃ vs : Array Int,
    st.values = some vs ∧
    vs.size = w ∧
    st.size = w ∧
    st.index = l.length % w ∧
    st.count = min l.length w ∧
    st.sum = (l.drop (l.length - min l.length w)).sum ∧
    (∀ i : Nat, i < min l.length w →
      vs.getD ((l.length - 1 - i) % w) 0 = l.getD (l.length - 1 - i) 0) ∧
    (∀ j : Nat, j < w → (∀ i : Nat, i < min l.length w → (l.length - 1 - i) % w ≠ j) →
      vs.getD j 0 = 0)

/-- The property claim C3 states, as a predicate on the window size and the
sample list: after feeding the samples to an initialized filter, the running
sum is the sum of the last min(n, w) samples, the valid count is min(n, w),
and the average returned by the last record call is their quotient under C
truncating integer division. -/
def C3Prop (w : Nat) (l : List Int) : Prop :=
  (ra_run_all (ra_filter_init w) l).1.sum = (l.drop (l.length - min l.length w)).sum ∧
  (ra_run_all (ra_filter_init w) l).1.count = min l.length w ∧
  (ra_run_all (ra_filter_init w) l).2 =
    Int.tdiv ((l.drop (l.length - min l.length w)).sum) ((min l.length w : Nat) : Int)

/-! ## Theorems -/

theorem cmd_dispatch_unknown (p : PixFormat) (d : String → Int → Int) (v : String) (x : Int)
    (hv : v ∉ supportedVars) : cmd_dispatch p d v x = (-1, []) := by
  simp only [supportedVars, List.mem_cons, List.not_mem_nil, or_false, not_or] at hv
  obtain ⟨h1, h2, h3, h4, h5, h6, h7, h8, h9, h10, h11, h12, h13, h14, h15, h16, h17, h18,
    h19, h20, h21, h22, h23⟩ := hv
  simp only [cmd_dispatch]
  rw [if_neg h1, if_neg h2, if_neg h3, if_neg h4, if_neg h5, if_neg h6, if_neg h7,
    if_neg h8, if_neg h9, if_neg h10, if_neg h11, if_neg h12, if_neg h13, if_neg h14,
    if_neg h15, if_neg h16, if_neg h17, if_neg h18, if_neg h19, if_neg h20, if_neg h21,
    if_neg h22, if_neg h23]

theorem ra_foldl_startup (l : List Int) :
    ∀ a : Int,
      (l.foldl (fun p v => ra_filter_run p.1 v) (startup_ra_filter, a)).1 = startup_ra_filter := by
  induction l with
  | nil => intro a; rfl
  | cons x xs ih =>
    intro a
    rw [List.foldl_cons]
    exact ih x

/-- Claim C10: running the filter when the values buffer was never allocated
(NULL) returns the raw input sample and leaves size, index, count and sum
untouched, so the smoothed average always equals the sample just fed in. -/
theorem C10_run_without_buffer (sz idx cnt : Nat) (sm v : Int) :
    ra_filter_run { size := sz, index := idx, count := cnt, sum := sm, values := none } v =
      ({ size := sz, index := idx, count := cnt, sum := sm, values := none }, v) := rfl

/-- Claim C2 (code bug in the sketch): the claim says the rate filter is
initialized exactly once at startup before any stream session records a
sample, but setup() performs no ra_filter_init call at all — the function is
dead code — so at the first recorded sample the filter still has a NULL
values buffer and the sample comes back raw and unsmoothed. -/
theorem C2_filter_never_initialized :
    setupActs.countP isRaFilterInit = 0 ∧
    startup_ra_filter.values = none ∧
    ra_filter_run startup_ra_filter 37 = (startup_ra_filter, 37) :=
  ⟨by decide, rfl, rfl⟩

/-- Claim C6 (amended): when a stream session terminates, the handler zeroes
only the last_frame timestamp; the rate filter globals are not touched by
session exit and persist into the next session.  (In the shipped program the
filter also happens to equal its startup state at every boundary, but only
because it is never initialized and ra_filter_run leaves an uninitialized
filter unmodified.) -/
theorem C6_session_exit_behavior :
    (∀ g : StreamGlobals,
      (stream_session_exit g).last_frame = 0 ∧ (stream_session_exit g).filter = g.filter) ∧
    (∀ l : List Int, (ra_run_all startup_ra_filter l).1 = startup_ra_filter) := by
  constructor
  · intro g
    exact ⟨rfl, rfl⟩
  · intro l
    exact ra_foldl_startup l 0

/-- Claim C6 counterexample: for a filter that has actually recorded a sample
(count 1), session exit does not restore the empty state — the valid-count is
still 1, not the initial 0 — refuting the claim that the buffer, sum, index
and count return to their initial empty values at a session boundary. -/
theorem C6_counterexample :
    (stream_session_exit
        { last_frame := 123, filter := (ra_filter_run (ra_filter_init 4) 5).1 }).filter.count = 1 ∧
    (1 : Nat) ≠ 0 := by
  refine ⟨rfl, by decide⟩

/-- Claim C5 (code bug in the sketch): the log line does report the byte size
and the elapsed milliseconds, but the fps field is 1000000 divided by the
smoothed average in milliseconds — 1000 times the value 1000 / average that
the claim (and the printed fps label) promise.  At an average frame time of
100 ms the code logs 10000 fps where the true rate is 10 fps. -/
theorem C5_fps_factor_1000_bug :
    (∀ avg : Nat, stream_log_fps avg = 1000 * ((1000 : Rat) / (avg : Rat))) ∧
    stream_log_line 4096 100 100 = (4096, 100, 10000) ∧
    (1000 : Rat) / (100 : Rat) = 10 ∧ (10000 : Rat) ≠ 10 := by
  refine ⟨?_, ?_, by norm_num, by norm_num⟩
  · intro avg
    rw [stream_log_fps, ← mul_div_assoc]
    norm_num
  · refine Prod.ext rfl (Prod.ext rfl ?_)
    show stream_log_fps 100 = 10000
    rw [stream_log_fps]
    norm_num

/-- Claim C9: a control request whose var value matches none of the fixed
table of supported parameter names is rejected — the response is never the
200 success response — regardless of the pixel format and of the driver, and
no driver setter call is made.  (Depending on the plumbing the rejection
surfaces as 404 or as 500, but never as success.) -/
theorem C9_unknown_var_rejected (inp : CmdInput) (p : PixFormat) (d : String → Int → Int)
    (q : List (String × String)) (v : String)
    (hq : inp.query = some q) (hv : qkv q "var" = some v) (hsup : v ∉ supportedVars) :
    (cmd_handler inp p d).1 ≠ CtrlResp.ok200 ∧ (cmd_handler inp p d).2 = [] := by
  rcases inp with ⟨query, aOk, pOk⟩
  have hq' : query = some q := hq
  subst hq'
  cases aOk with
  | false => exact ⟨by simp [cmd_handler], by simp [cmd_handler]⟩
  | true =>
    cases pOk with
    | false => exact ⟨by simp [cmd_handler], by simp [cmd_handler]⟩
    | true =>
      cases hval : qkv q "val" with
      | none =>
        constructor
        · simp [cmd_handler, hv, hval]
        · simp [cmd_handler, hv, hval]
      | some s =>
        have hdis := cmd_dispatch_unknown p d v (atoi s) hsup
        constructor
        · simp [cmd_handler, hv, hval, hdis]
        · simp [cmd_handler, hv, hval, hdis]

/-- Claim C9 witness: the concrete request var=unknown_name, val=5 satisfies
the hypotheses and is rejected with no driver call. -/
theorem C9_unknown_var_rejected_witness :
    reqUnknownVar.query = some [("var", "unknown_name"), ("val", "5")] ∧
    qkv [("var", "unknown_name"), ("val", "5")] "var" = some "unknown_name" ∧
    "unknown_name" ∉ supportedVars ∧
    ((cmd_handler reqUnknownVar PixFormat.jpeg (fun _ _ => 0)).1 ≠ CtrlResp.ok200 ∧
      (cmd_handler reqUnknownVar PixFormat.jpeg (fun _ _ => 0)).2 = []) :=
  ⟨rfl, by decide, by decide,
    C9_unknown_var_rejected reqUnknownVar PixFormat.jpeg (fun _ _ => 0)
      [("var", "unknown_name"), ("val", "5")] "unknown_name" rfl (by decide) (by decide)⟩

/-- Claim C8 (amended): a control request whose query string is absent, or
whose query is present but missing the var or the val key, is answered 404
with no driver setter call — provided the transient query-buffer allocation
succeeds.  (If that malloc fails the code answers 500 instead, still with no
driver call; the original claim says 404 is returned in all such cases.) -/
theorem C8_missing_query_404 (inp : CmdInput) (p : PixFormat) (d : String → Int → Int)
    (h : inp.query = none ∨
      ∃ q, inp.query = some q ∧ inp.allocOk = true ∧
        (qkv q "var" = none ∨ qkv q "val" = none)) :
    cmd_handler inp p d = (CtrlResp.err404, []) := by
  rcases inp with ⟨query, aOk, pOk⟩
  rcases h with hnone | ⟨q, hq, ha, hmiss⟩
  · have hq' : query = none := hnone
    subst hq'
    rfl
  · have hq' : query = some q := hq
    subst hq'
    have ha' : aOk = true := ha
    subst ha'
    cases pOk with
    | false => rfl
    | true =>
      rcases hmiss with hvar | hval
      · simp [cmd_handler, hvar]
      · cases hv : qkv q "var" with
        | none => simp [cmd_handler, hv]
        | some s => simp [cmd_handler, hv, hval]

/-- Claim C8 witness: the concrete request with query var=quality and no val
key, with a successful allocation, satisfies the hypotheses and is answered
404 with no driver call. -/
theorem C8_missing_query_404_witness :
    (reqMissingVal.query = some [("var", "quality")] ∧
      qkv [("var", "quality")] "val" = none) ∧
    cmd_handler reqMissingVal PixFormat.jpeg (fun _ _ => 0) = (CtrlResp.err404, []) :=
  ⟨⟨rfl, by decide⟩,
    C8_missing_query_404 _ _ _ (Or.inr ⟨[("var", "quality")], rfl, rfl, Or.inr (by decide)⟩)⟩

/-- Claim C8 counterexample: a control request with a query that is missing
val is answered 500 — not 404 — when the transient query-buffer malloc
fails, so as stated (404, never 500) the claim fails on the code. -/
theorem C8_counterexample :
    (cmd_handler reqMissingValAllocFail PixFormat.jpeg (fun _ _ => 0)).1 = CtrlResp.err500 ∧
    CtrlResp.err500 ≠ CtrlResp.err404 :=
  ⟨rfl, by decide⟩

/-- Claim C1 (amended): a control request carrying var=framesize made while
the current pixel format is not the compressed (JPEG) format makes no driver
set_framesize call — but it is not rejected: res keeps its initial value 0,
so the handler returns the 200 success response (empty body with the CORS
header), not an error response. -/
theorem C1_framesize_guard (inp : CmdInput) (p : PixFormat) (d : String → Int → Int)
    (q : List (String × String)) (vstr : String)
    (hp : p ≠ PixFormat.jpeg) (hq : inp.query = some q) (ha : inp.allocOk = true)
    (hpk : inp.parseOk = true) (hvar : qkv q "var" = some "framesize")
    (hval : qkv q "val" = some vstr) :
    cmd_handler inp p d = (CtrlResp.ok200, []) := by
  rcases inp with ⟨query, aOk, pOk⟩
  have hq' : query = some q := hq
  subst hq'
  have ha' : aOk = true := ha
  subst ha'
  have hpk' : pOk = true := hpk
  subst hpk'
  simp [cmd_handler, hvar, hval, cmd_dispatch, hp]

/-- Claim C1 witness: with the sensor in the non-JPEG format and a driver
that would answer 7 (an error) if it were ever called, the concrete request
var=framesize val=5 yields the 200 success response and no driver call. -/
theorem C1_framesize_guard_witness :
    PixFormat.other ≠ PixFormat.jpeg ∧
    qkv [("var", "framesize"), ("val", "5")] "var" = some "framesize" ∧
    qkv [("var", "framesize"), ("val", "5")] "val" = some "5" ∧
    cmd_handler reqFramesize PixFormat.other (fun _ _ => 7) = (CtrlResp.ok200, []) :=
  ⟨by decide, by decide, by decide,
    C1_framesize_guard reqFramesize PixFormat.other (fun _ _ => 7)
      [("var", "framesize"), ("val", "5")] "5" (by decide) rfl rfl rfl (by decide) (by decide)⟩

/-- Claim C1 counterexample: the claim says such a request is rejected with
an error response; in fact with pixel format not JPEG the request
var=framesize val=5 returns the 200 success response (and makes no driver
call), which is neither a 404 nor a 500. -/
theorem C1_counterexample :
    cmd_handler reqFramesize PixFormat.other (fun _ _ => 0) = (CtrlResp.ok200, []) ∧
    CtrlResp.ok200 ≠ CtrlResp.err404 ∧ CtrlResp.ok200 ≠ CtrlResp.err500 :=
  ⟨by decide, by decide, by decide⟩

theorem streamTrace_cons_true (e : IterEnv) (rest : List IterEnv)
    (h : (streamIter e).2 = true) :
    streamTrace (e :: rest) = (streamIter e).1 ++ streamTrace rest := by
  simp [streamTrace, h]

theorem streamTrace_cons_false (e : IterEnv) (rest : List IterEnv)
    (h : (streamIter e).2 = false) :
    streamTrace (e :: rest) = (streamIter e).1 := by
  simp [streamTrace, h]

theorem ownCheck_append (a : List Ev) :
    ∀ (b : List Ev) (st st2 : Bool × Bool), ownCheck a st = some st2 →
      ownCheck (a ++ b) st = ownCheck b st2 := by
  induction a with
  | nil =>
    intro b st st2 h
    simp only [ownCheck] at h
    cases h
    rfl
  | cons e rest ih =>
    intro b st st2 h
    simp only [ownCheck, List.cons_append] at h ⊢
    cases hstep : ownStep st e with
    | none =>
      rw [hstep] at h
      exact Option.noConfusion h
    | some st1 =>
      rw [hstep] at h
      exact ih b st1 st2 h

theorem streamIter_ownCheck (e : IterEnv) :
    ownCheck (streamIter e).1 (false, false) = some (false, false) := by
  rcases e with ⟨acq, conv, w1, w2, w3⟩
  rcases acq with _ | fb
  · rfl
  · rcases fb with ⟨fmt, len⟩
    cases fmt with
    | jpeg => cases w1 <;> cases w2 <;> cases w3 <;> rfl
    | other =>
      rcases conv with _ | clen
      · rfl
      · cases w1 <;> cases w2 <;> cases w3 <;> rfl

theorem streamTrace_ownCheck (s : List IterEnv) :
    ownCheck (streamTrace s) (false, false) = some (false, false) := by
  induction s with
  | nil => rfl
  | cons e rest ih =>
    cases h : (streamIter e).2
    · rw [streamTrace_cons_false e rest h]
      exact streamIter_ownCheck e
    · rw [streamTrace_cons_true e rest h,
        ownCheck_append _ _ _ _ (streamIter_ownCheck e)]
      exact ih

theorem streamIter_counts (e : IterEnv) :
    (streamIter e).1.countP isAcqOk = (streamIter e).1.countP isFbReturn ∧
    (streamIter e).1.countP isConvOk = (streamIter e).1.countP isFreeBuf := by
  rcases e with ⟨acq, conv, w1, w2, w3⟩
  rcases acq with _ | fb
  · exact ⟨rfl, rfl⟩
  · rcases fb with ⟨fmt, len⟩
    cases fmt with
    | jpeg => cases w1 <;> cases w2 <;> cases w3 <;> exact ⟨rfl, rfl⟩
    | other =>
      rcases conv with _ | clen
      · exact ⟨rfl, rfl⟩
      · cases w1 <;> cases w2 <;> cases w3 <;> exact ⟨rfl, rfl⟩

theorem streamTrace_counts (s : List IterEnv) :
    (streamTrace s).countP isAcqOk = (streamTrace s).countP isFbReturn ∧
    (streamTrace s).countP isConvOk = (streamTrace s).countP isFreeBuf := by
  induction s with
  | nil => exact ⟨rfl, rfl⟩
  | cons e rest ih =>
    cases h : (streamIter e).2
    · rw [streamTrace_cons_false e rest h]
      exact streamIter_counts e
    · rw [streamTrace_cons_true e rest h]
      constructor
      · rw [List.countP_append, List.countP_append, (streamIter_counts e).1, ih.1]
      · rw [List.countP_append, List.countP_append, (streamIter_counts e).2, ih.2]

theorem streamTrace_writes (script : List IterEnv) :
    (streamTrace script).filter isWriteEv = specWrites script := by
  induction script with
  | nil => rfl
  | cons e rest ih =>
    rcases e with ⟨acq, conv, w1, w2, w3⟩
    rcases acq with _ | fb
    · rfl
    · rcases fb with ⟨fmt, len⟩
      cases fmt with
      | jpeg =>
        cases w1 <;> cases w2 <;> cases w3 <;>
          simp [streamTrace, streamIter, writePhase, specWrites, servedLen, isWriteEv,
            List.filter_append, ih]
      | other =>
        rcases conv with _ | clen
        · rfl
        · cases w1 <;> cases w2 <;> cases w3 <;>
            simp [streamTrace, streamIter, writePhase, specWrites, servedLen, isWriteEv,
              List.filter_append, ih]

theorem noWritesAfterFailB_append (a : List Ev) :
    ∀ b : List Ev, a.all (fun e => !isFailedWrite e) = true →
      noWritesAfterFailB b = true → noWritesAfterFailB (a ++ b) = true := by
  induction a with
  | nil =>
    intro b _ hb
    exact hb
  | cons x xs ih =>
    intro b ha hb
    simp only [List.all_cons, Bool.and_eq_true] at ha
    have hx : isFailedWrite x = false := by
      cases hfx : isFailedWrite x
      · rfl
      · rw [hfx] at ha
        exact absurd ha.1 (by simp)
    simp only [List.cons_append, noWritesAfterFailB, hx, if_false, Bool.true_and]
    exact ih b ha.2 hb

theorem streamIter_ok_all_writes_ok (e : IterEnv) (h : (streamIter e).2 = true) :
    (streamIter e).1.all (fun x => !isFailedWrite x) = true := by
  rcases e with ⟨acq, conv, w1, w2, w3⟩
  rcases acq with _ | fb
  · exact absurd h (by simp [streamIter])
  · rcases fb with ⟨fmt, len⟩
    cases fmt with
    | jpeg =>
      cases w1 <;> cases w2 <;> cases w3 <;>
        first
          | rfl
          | exact absurd h (by simp [streamIter, writePhase])
    | other =>
      rcases conv with _ | clen
      · exact absurd h (by simp [streamIter])
      · cases w1 <;> cases w2 <;> cases w3 <;>
          first
            | rfl
            | exact absurd h (by simp [streamIter, writePhase])

theorem streamIter_noWAF (e : IterEnv) :
    noWritesAfterFailB (streamIter e).1 = true := by
  rcases e with ⟨acq, conv, w1, w2, w3⟩
  rcases acq with _ | fb
  · rfl
  · rcases fb with ⟨fmt, len⟩
    cases fmt with
    | jpeg => cases w1 <;> cases w2 <;> cases w3 <;> rfl
    | other =>
      rcases conv with _ | clen
      · rfl
      · cases w1 <;> cases w2 <;> cases w3 <;> rfl

theorem streamTrace_noWAF (s : List IterEnv) :
    noWritesAfterFailB (streamTrace s) = true := by
  induction s with
  | nil => rfl
  | cons e rest ih =>
    cases h : (streamIter e).2
    · rw [streamTrace_cons_false e rest h]
      exact streamIter_noWAF e
    · rw [streamTrace_cons_true e rest h]
      exact noWritesAfterFailB_append _ _ (streamIter_ok_all_writes_ok e h) ih

/-- Claim C4 (amended): over every script of iteration environments the
stream loop trace respects the ownership discipline — hardware-frame
acquires and releases, and converted-buffer allocations and deallocations,
are paired one-to-one in order with at most one of each outstanding at any
instant, and nothing is left outstanding when the loop ends — and in total
the number of releases equals the number of successful acquires and the
number of deallocations equals the number of successful conversions.  Per
iteration: an acquire failure disposes nothing; an iteration serving a
hardware-owned JPEG frame performs exactly one release and no deallocation,
whatever the write outcomes; a conversion failure releases the original
frame exactly once and frees nothing; a conversion iteration releases the
original frame at conversion time and additionally deallocates the converted
buffer after the writes — one release and one deallocation, so such an
iteration contains two disposal calls, not one as the claim as stated says. -/
theorem C4_frame_ownership :
    (∀ script : List IterEnv,
      ownCheck (streamTrace script) (false, false) = some (false, false)) ∧
    (∀ script : List IterEnv,
      (streamTrace script).countP isAcqOk = (streamTrace script).countP isFbReturn ∧
      (streamTrace script).countP isConvOk = (streamTrace script).countP isFreeBuf) ∧
    (∀ e : IterEnv, e.acq = none →
      (streamIter e).1.countP isFbReturn = 0 ∧ (streamIter e).1.countP isFreeBuf = 0) ∧
    (∀ e : IterEnv, ∀ fb : FrameBuf, e.acq = some fb → fb.format = PixFormat.jpeg →
      (streamIter e).1.countP isFbReturn = 1 ∧ (streamIter e).1.countP isFreeBuf = 0) ∧
    (∀ e : IterEnv, ∀ fb : FrameBuf, e.acq = some fb → fb.format = PixFormat.other →
      e.conv = none →
      (streamIter e).1.countP isFbReturn = 1 ∧ (streamIter e).1.countP isFreeBuf = 0) ∧
    (∀ e : IterEnv, ∀ fb : FrameBuf, ∀ c : Nat, e.acq = some fb →
      fb.format = PixFormat.other → e.conv = some c →
      (streamIter e).1.countP isFbReturn = 1 ∧ (streamIter e).1.countP isFreeBuf = 1) := by
  refine ⟨streamTrace_ownCheck, streamTrace_counts, ?_, ?_, ?_, ?_⟩
  · intro e h
    rcases e with ⟨acq, conv, w1, w2, w3⟩
    have h' : acq = none := h
    subst h'
    exact ⟨rfl, rfl⟩
  · intro e fb hacq hfmt
    rcases e with ⟨acq, conv, w1, w2, w3⟩
    have h' : acq = some fb := hacq
    subst h'
    rcases fb with ⟨fmt, len⟩
    have h'' : fmt = PixFormat.jpeg := hfmt
    subst h''
    cases w1 <;> cases w2 <;> cases w3 <;> exact ⟨rfl, rfl⟩
  · intro e fb hacq hfmt hconv
    rcases e with ⟨acq, conv, w1, w2, w3⟩
    have h' : acq = some fb := hacq
    subst h'
    rcases fb with ⟨fmt, len⟩
    have h'' : fmt = PixFormat.other := hfmt
    subst h''
    have h3 : conv = none := hconv
    subst h3
    exact ⟨rfl, rfl⟩
  · intro e fb c hacq hfmt hconv
    rcases e with ⟨acq, conv, w1, w2, w3⟩
    have h' : acq = some fb := hacq
    subst h'
    rcases fb with ⟨fmt, len⟩
    have h'' : fmt = PixFormat.other := hfmt
    subst h''
    have h3 : conv = some c := hconv
    subst h3
    cases w1 <;> cases w2 <;> cases w3 <;> exact ⟨rfl, rfl⟩

/-- Claim C4 witness: the concrete conversion iteration convIter satisfies
the hypotheses of the per-iteration part and performs one release of the
original frame plus one deallocation of the converted buffer. -/
theorem C4_frame_ownership_witness :
    convIter.acq = some { format := PixFormat.other, len := 5 } ∧
    ({ format := PixFormat.other, len := 5 } : FrameBuf).format = PixFormat.other ∧
    convIter.conv = some 7 ∧
    ((streamIter convIter).1.countP isFbReturn = 1 ∧
      (streamIter convIter).1.countP isFreeBuf = 1) :=
  ⟨rfl, rfl, rfl,
    C4_frame_ownership.2.2.2.2.2 convIter { format := PixFormat.other, len := 5 } 7
      rfl rfl rfl⟩

/-- Claim C4 counterexample: serving a single raw frame through a successful
conversion gives one frame acquire but two disposal calls — the original
frame is released AND the converted buffer is deallocated in the same
iteration — so the claim that exactly k release-or-deallocate calls occur
for k frames, with exactly one of release/deallocate per iteration and never
both, fails on the conversion path. -/
theorem C4_counterexample :
    (streamTrace convScript).countP isAcqOk = 1 ∧
    (streamTrace convScript).countP isFbReturn = 1 ∧
    (streamTrace convScript).countP isFreeBuf = 1 ∧
    (streamTrace convScript).countP isFbReturn +
      (streamTrace convScript).countP isFreeBuf ≠ 1 :=
  ⟨rfl, rfl, rfl, by decide⟩

/-- Claim C7: in every iteration that writes a part the writes occur in
order — the per-part header formatted from the source format string with
Content-Length equal to the payload length, then the payload bytes, then the
boundary delimiter — and the write projection of the loop trace equals,
for every script, the part stream prescribed by the spec, which truncates
the part at the first failed write and emits nothing afterwards; after any
failed write no further write occurs anywhere in the trace. -/
theorem C7_multipart_write_order :
    (∀ n : Nat, STREAM_PART_fmt n =
      "Content-Type: image/jpeg\r\nContent-Length: " ++ Nat.repr n ++ "\r\n\r\n") ∧
    STREAM_BOUNDARY = "\r\n--" ++ PART_BOUNDARY ++ "\r\n" ∧
    (∀ script : List IterEnv, (streamTrace script).filter isWriteEv = specWrites script) ∧
    (∀ script : List IterEnv, noWritesAfterFailB (streamTrace script) = true) :=
  ⟨fun _ => rfl, rfl, streamTrace_writes, streamTrace_noWAF⟩

theorem getD_mkArray_zero (w j : Nat) : (mkArray w (0 : Int)).getD j 0 = 0 := by
  unfold Array.getD
  split
  · simp
  · rfl

theorem getD_setD_self (a : Array Int) (i : Nat) (h : i < a.size) (x : Int) :
    (a.setD i x).getD i 0 = x := by
  unfold Array.setD
  rw [dif_pos h]
  unfold Array.getD
  have hs : i < (a.set ⟨i, h⟩ x).size := by simpa using h
  rw [dif_pos hs]
  simp

theorem getD_setD_ne (a : Array Int) (i j : Nat) (x : Int) (hne : j ≠ i) :
    (a.setD i x).getD j 0 = a.getD j 0 := by
  unfold Array.setD
  split
  · unfold Array.getD
    by_cases hj : j < a.size
    · have hj2 : j < (a.set ⟨i, ‹i < a.size›⟩ x).size := by simpa using hj
      rw [dif_pos hj2, dif_pos hj]
      simp [Array.get_set, Ne.symm hne]
    · have hj2 : ¬ j < (a.set ⟨i, ‹i < a.size›⟩ x).size := by simpa using hj
      rw [dif_neg hj2, dif_neg hj]
  · rfl

theorem mod_succ_eq (n w : Nat) : (n % w + 1) % w = (n + 1) % w :=
  (Nat.mod_modEq n w).add_right 1

theorem sub_w_mod (n w : Nat) (h : w ≤ n) : (n - w) % w = n % w := by
  conv_rhs => rw [← Nat.sub_add_cancel h]
  rw [Nat.add_mod_right]

theorem mod_ne_of_lt_div (n i w : Nat) (hi1 : 1 ≤ i) (hiw : i < w) (hin : i ≤ n) :
    (n - i) % w ≠ n % w := by
  intro hmod
  have hmeq : Nat.ModEq w (n - i) n := hmod
  have hdvd : w ∣ n - (n - i) := (Nat.modEq_iff_dvd' (Nat.sub_le n i)).mp hmeq
  have hni : n - (n - i) = i := by omega
  rw [hni] at hdvd
  have := Nat.le_of_dvd (by omega) hdvd
  omega

theorem sub_mod_cancel (n j w : Nat) (hw : 0 < w) (hj : j < w) (hjn : j ≤ n) (hwn : w ≤ n) :
    (n - (n - j) % w) % w = j := by
  set r := (n - j) % w with hr
  have hrw : r < w := Nat.mod_lt _ hw
  have h1 : j + (n - j) = n := by omega
  have h2 : Nat.ModEq w (j + r) (j + (n - j)) := Nat.ModEq.add_left j (Nat.mod_modEq _ _)
  have h3 : Nat.ModEq w (j + r) n := by rw [h1] at h2; exact h2
  have h4 : (n - r) + r = n := by omega
  have h5 : Nat.ModEq w ((n - r) + r) (j + r) := by rw [h4]; exact h3.symm
  have h6 : Nat.ModEq w (n - r) j := Nat.ModEq.add_right_cancel' r h5
  have h7 : (n - r) % w = j % w := h6
  rw [Nat.mod_eq_of_lt hj] at h7
  exact h7

theorem ra_run_all_append_single (f : ra_filter_t) (l : List Int) (x : Int) :
    ra_run_all f (l ++ [x]) = ra_filter_run (ra_run_all f l).1 x := by
  simp [ra_run_all, List.foldl_append]

theorem filterInv_nil (w : Nat) : FilterInv w [] (ra_filter_init w) := by
  refine ⟨mkArray w 0, rfl, by simp, rfl, by simp [ra_filter_init],
    by simp [ra_filter_init], by simp [ra_filter_init], ?_, ?_⟩
  · intro i hi
    simp at hi
  · intro j _ _
    exact getD_mkArray_zero w j

theorem filterInv_step (w : Nat) (hw : 0 < w) (l : List Int) (x : Int) (st : ra_filter_t)
    (h : FilterInv w l st) :
    FilterInv w (l ++ [x]) (ra_filter_run st x).1 ∧
    (ra_filter_run st x).2 =
      Int.tdiv ((ra_filter_run st x).1.sum) (((ra_filter_run st x).1.count : Nat) : Int) := by
  obtain ⟨vs, hv, hvs, hsz, hidx, hcnt, hsum, hA, hB⟩ := h
  rcases st with ⟨sz, idx, cnt, sm, vals⟩
  have hv' : vals = some vs := hv
  subst hv'
  have hsz' : w = sz := (hsz : sz = w).symm
  subst hsz'
  have hidx' : idx = l.length % w := hidx
  subst hidx'
  have hcnt' : cnt = min l.length w := hcnt
  subst hcnt'
  have hsum' : sm = (l.drop (l.length - min l.length w)).sum := hsum
  subst hsum'
  set n := l.length with hn
  have hlen : (l ++ [x]).length = n + 1 := by simp [hn]
  have hidxlt : n % w < w := Nat.mod_lt _ hw
  have hvsize : n % w < vs.size := by rw [hvs]; exact hidxlt
  have hnew : (vs.setD (n % w) x).getD (n % w) 0 = x := getD_setD_self vs (n % w) hvsize x
  have hold : vs.getD (n % w) 0 = if n < w then 0 else l.getD (n - w) 0 := by
    by_cases hnw : n < w
    · rw [if_pos hnw]
      have hmod : n % w = n := Nat.mod_eq_of_lt hnw
      rw [hmod]
      apply hB n hnw
      intro i hi
      have hmin : min n w = n := by omega
      rw [hmin] at hi
      have hmi : (n - 1 - i) % w = n - 1 - i := Nat.mod_eq_of_lt (by omega)
      rw [hmi]
      omega
    · rw [if_neg hnw]
      have hwn : w ≤ n := not_lt.mp hnw
      have hww : w - 1 < min n w := by omega
      have hAw := hA (w - 1) hww
      have he1 : n - 1 - (w - 1) = n - w := by omega
      rw [he1, sub_w_mod n w hwn] at hAw
      exact hAw
  constructor
  · refine ⟨vs.setD (n % w) x, rfl, ?_, rfl, ?_, ?_, ?_, ?_, ?_⟩
    · rw [Array.size_setD]
      exact hvs
    · show (n % w + 1) % w = (l ++ [x]).length % w
      rw [hlen]
      exact mod_succ_eq n w
    · show (if min n w < w then min n w + 1 else min n w) = min (l ++ [x]).length w
      rw [hlen]
      split_ifs <;> omega
    · show (l.drop (n - min n w)).sum - vs.getD (n % w) 0 +
        (vs.setD (n % w) x).getD (n % w) 0 =
        ((l ++ [x]).drop ((l ++ [x]).length - min (l ++ [x]).length w)).sum
      rw [hlen, hnew, hold]
      by_cases hnw : n < w
      · rw [if_pos hnw]
        have h1 : min n w = n := by omega
        have h2 : min (n + 1) w = n + 1 := by omega
        rw [h1, h2]
        simp [List.sum_append]
      · rw [if_neg hnw]
        have hwn : w ≤ n := not_lt.mp hnw
        have h1 : min n w = w := by omega
        have h2 : min (n + 1) w = w := by omega
        rw [h1, h2]
        have hsub : n - w < l.length := by omega
        have hdrop : l.drop (n - w) = l[n - w] :: l.drop (n - w + 1) :=
          List.drop_eq_getElem_cons hsub
        have hgd : l.getD (n - w) 0 = l[n - w] := List.getD_eq_getElem l 0 hsub
        have hdrop2 : (l ++ [x]).drop (n + 1 - w) = l.drop (n + 1 - w) ++ [x] := by
          rw [List.drop_append_eq_append_drop]
          have hz : n + 1 - w - l.length = 0 := by omega
          rw [hz]
          rfl
        have he2 : n - w + 1 = n + 1 - w := by omega
        rw [hgd, hdrop2, List.sum_append, hdrop, he2]
        simp only [List.sum_cons, List.sum_nil, add_zero]
        omega
    · intro i hi
      rw [hlen] at hi
      show (vs.setD (n % w) x).getD (((l ++ [x]).length - 1 - i) % w) 0 =
        (l ++ [x]).getD ((l ++ [x]).length - 1 - i) 0
      rw [hlen]
      have he3 : n + 1 - 1 - i = n - i := by omega
      rw [he3]
      by_cases hi0 : i = 0
      · subst hi0
        have he4 : n - 0 = n := by omega
        rw [he4, hnew]
        have hnlt : n < (l ++ [x]).length := by rw [hlen]; omega
        rw [List.getD_eq_getElem (l ++ [x]) 0 hnlt]
        rw [List.getElem_append_right (by omega)]
        simp [hn]
      · have hi1 : 1 ≤ i := by omega
        have hiw : i < w := by omega
        have hin : i ≤ n := by omega
        have hne := mod_ne_of_lt_div n i w hi1 hiw hin
        rw [getD_setD_ne vs (n % w) ((n - i) % w) x hne]
        have hi1m : i - 1 < min n w := by omega
        have hAi := hA (i - 1) hi1m
        have he5 : n - 1 - (i - 1) = n - i := by omega
        rw [he5] at hAi
        rw [hAi]
        have hlt : n - i < l.length := by omega
        rw [List.getD_eq_getElem l 0 hlt]
        have hlt2 : n - i < (l ++ [x]).length := by rw [hlen]; omega
        rw [List.getD_eq_getElem (l ++ [x]) 0 hlt2]
        rw [List.getElem_append_left]
    · intro j hj hnot
      rw [hlen] at hnot
      show (vs.setD (n % w) x).getD j 0 = 0
      have hnot' : ∀ i : Nat, i < min (n + 1) w → (n - i) % w ≠ j := by
        intro i hi
        have hni := hnot i hi
        have he6 : n + 1 - 1 - i = n - i := by omega
        rw [he6] at hni
        exact hni
      by_cases hnw : n < w
      · have hmod : n % w = n := Nat.mod_eq_of_lt hnw
        have hj_ne_n : j ≠ n := by
          intro heq
          have h0 : (0 : Nat) < min (n + 1) w := by omega
          have hx0 := hnot' 0 h0
          have he7 : n - 0 = n := by omega
          rw [he7, hmod] at hx0
          exact hx0 heq.symm
        rw [hmod]
        rw [getD_setD_ne vs n j x hj_ne_n]
        apply hB j hj
        intro i hi
        have hmin : min n w = n := by omega
        rw [hmin] at hi
        have hi1 : i + 1 < min (n + 1) w := by omega
        have hni := hnot' (i + 1) hi1
        have he8 : n - (i + 1) = n - 1 - i := by omega
        rw [he8] at hni
        exact hni
      · exfalso
        have hwn : w ≤ n := not_lt.mp hnw
        have hi0 : (n - j) % w < min (n + 1) w := by
          have := Nat.mod_lt (n - j) hw
          omega
        have hni := hnot' ((n - j) % w) hi0
        exact hni (sub_mod_cancel n j w hw hj (by omega) hwn)
  · rfl

theorem filterInv_run (w : Nat) (hw : 0 < w) (l : List Int) :
    FilterInv w l (ra_run_all (ra_filter_init w) l).1 := by
  induction l using List.reverseRecOn with
  | nil => exact filterInv_nil w
  | append_singleton l' x ih =>
    rw [ra_run_all_append_single]
    exact (filterInv_step w hw l' x _ ih).1

/-- Claim C3: for every window size w of at least 1 and every nonempty
sample list fed through ra_filter_run starting from an initialized filter,
the running sum equals the sum of the last min(n, w) samples, the valid
count equals min(n, w), and the average returned by the last record call
equals sum divided by min(n, w) in C truncating integer division. -/
theorem C3_rate_filter (w : Nat) (l : List Int) (hw : 0 < w) (hl : l ≠ []) :
    C3Prop w l := by
  induction l using List.reverseRecOn with
  | nil => exact absurd rfl hl
  | append_singleton l' x ih =>
    have hinv := filterInv_run w hw l'
    have hstep := filterInv_step w hw l' x _ hinv
    obtain ⟨vs, hv, hvs, hsz, hidx, hcnt, hsum, hA, hB⟩ := hstep.1
    refine ⟨?_, ?_, ?_⟩
    · rw [ra_run_all_append_single]
      exact hsum
    · rw [ra_run_all_append_single]
      exact hcnt
    · rw [ra_run_all_append_single]
      rw [hstep.2, hsum, hcnt]

/-- Claim C3 witness: window size 2 with the concrete samples 3, 5, 7, 9;
the final sum is 16 (the last two samples), the count is 2 and the returned
average is 8. -/
theorem C3_rate_filter_witness :
    0 < 2 ∧ ([3, 5, 7, 9] : List Int) ≠ [] ∧ C3Prop 2 [3, 5, 7, 9] :=
  ⟨by decide, by decide, C3_rate_filter 2 [3, 5, 7, 9] (by decide) (by decide)⟩
